import Mathlib

/-!
Verification development for the `async_throttle_optimizer` package.

The embedding below follows the two source files
`src/async_throttle_optimizer/throttler.py` (class `RequestThrottler`) and
`src/async_throttle_optimizer/rate_finder.py` (class `RateFinder`).

Modelling decisions, stated once here:

* Python floats are modelled by exact rationals (`ℚ`).  Verified statements
  therefore hold of the exact arithmetic the source's formulas denote;
  IEEE-754 rounding is outside the model.
* `time.time()` timestamps, `req_start_timestamps`, `worker_req_map` and
  `req_timeline` are diagnostic only (they never flow into `compute_stats`
  or into `RateFinder`'s decisions); the embedding keeps of `_send_request`'s
  return value only its shape (`some` tuple vs Python `None`), which is what
  `_worker`'s unpacking step observes.
* A Python `dict [int, int]` is modelled as an association list with unique
  keys; `dict_get`/`dict_incr` mirror `d.get(k, 0)` and `d[k] = d.get(k, 0) + 1`.
* The behaviour of one trial is modelled at concurrency 1 (one worker draining
  the queue in order), a legitimate schedule of the cooperative model; the
  aggregate statistics do not depend on the interleaving.
* Python's `math.sqrt` has no executable rational counterpart, so `TrialStats`
  carries the radicand `(sum_sq / n) - mean * mean` (field `std_sq`) instead of
  its square root `std`.  Presence (`None`-ness) and sign of `std` transfer
  through the square root unchanged.
-/

/-- Outcome of one HTTP GET as seen by `RequestThrottler._send_request`: either
a full response with a status code and a measured latency, or a transport-level
failure (`aiohttp.ClientError` / `asyncio.TimeoutError`). -/
inductive Outcome where
  | success (status : ℕ) (latency : ℚ)
  | failure
deriving DecidableEq, Repr

/-- Lookup in a Python-dict-as-association-list: `d.get(k, 0)`. -/
def dict_get (d : List (ℕ × ℕ)) (k : ℕ) : ℕ :=
  match d with
  | [] => 0
  | (a, b) :: t => if a = k then b else dict_get t k

/-- Python `d[k] = d.get(k, 0) + 1`: bump the value at `k`, inserting the key
at the end when absent (Python dicts keep insertion order). -/
def dict_incr (d : List (ℕ × ℕ)) (k : ℕ) : List (ℕ × ℕ) :=
  match d with
  | [] => [(k, 1)]
  | (a, b) :: t => if a = k then (a, b + 1) :: t else (a, b) :: dict_incr t k

/-- Sum of all values of a status-count dict. -/
def sum_vals (d : List (ℕ × ℕ)) : ℕ :=
  (d.map (fun p => p.2)).sum

/-- Mutable aggregation state of a `RequestThrottler` instance: the fields of
`__init__` that feed `compute_stats` (`latencies`, `success_count`,
`error_count`, `status_counts`). -/
structure ThrottlerState where
  latencies : List ℚ
  success_count : ℕ
  error_count : ℕ
  status_counts : List (ℕ × ℕ)
deriving DecidableEq, Repr

/-- State of a freshly constructed `RequestThrottler` (`__init__`). -/
def init_throttler_state : ThrottlerState :=
  { latencies := [], success_count := 0, error_count := 0, status_counts := [] }

/-- Embedding of `RequestThrottler._send_request` (throttler.py lines 43-68).
On success the method bumps `status_counts[status]`, appends the latency,
increments `success_count` and returns the tuple `(start, end)`; on a transport
failure it increments `error_count` and falls off the `except` branch with a
bare `return`, i.e. it returns Python `None` — modelled as `none` (the tuple's
timestamp contents are diagnostic and are not modelled). -/
def send_request (s : ThrottlerState) (o : Outcome) : ThrottlerState × Option Unit :=
  match o with
  | Outcome.success status latency =>
      ({ s with
          status_counts := dict_incr s.status_counts status,
          latencies := s.latencies ++ [latency],
          success_count := s.success_count + 1 },
        some ())
  | Outcome.failure =>
      ({ s with error_count := s.error_count + 1 }, none)

/-- Fold of `_send_request`'s state mutations over the per-URL outcomes of a
trial, in queue order. -/
def record_outcomes (s : ThrottlerState) (outcomes : List Outcome) : ThrottlerState :=
  outcomes.foldl (fun t o => (send_request t o).1) s

/-- Embedding of one loop body of `RequestThrottler._worker` (throttler.py
lines 78-104).  The worker writes
`start_time, end_time = await self._send_request(session, url)`; when
`_send_request` returned `None` (transport failure) this unpacking raises
`TypeError`, the worker task dies, and `queue.task_done()` on line 104 is never
executed for that item — modelled as `none`. -/
def worker_step (s : ThrottlerState) (o : Outcome) : Option ThrottlerState :=
  match send_request s o with
  | (t, some _) => some t
  | (_, none) => none

/-- Summary statistics returned by `RequestThrottler.compute_stats` as the
7-tuple `(total_requests, mean, std, min_lat, max_lat, error_rate,
status_distribution)`.  The field `std_sq` holds the radicand
`(sum_sq / n) - mean * mean` whose square root the source takes (see the
modelling note at the top of the file). -/
structure TrialStats where
  total_requests : ℕ
  mean : Option ℚ
  std_sq : Option ℚ
  min_lat : Option ℚ
  max_lat : Option ℚ
  error_rate : ℚ
  status_distribution : List (ℕ × ℕ)
deriving DecidableEq, Repr

/-- Python `min(l)` over a nonempty list, `none` on `[]`. -/
def list_min : List ℚ → Option ℚ
  | [] => none
  | x :: t => some (t.foldl min x)

/-- Python `max(l)` over a nonempty list, `none` on `[]`. -/
def list_max : List ℚ → Option ℚ
  | [] => none
  | x :: t => some (t.foldl max x)

/-- Embedding of `RequestThrottler.compute_stats` (throttler.py lines
106-149). -/
def compute_stats (s : ThrottlerState) : TrialStats :=
  let total_requests := s.success_count + s.error_count
  if total_requests = 0 then
    { total_requests := 0, mean := none, std_sq := none, min_lat := none,
      max_lat := none, error_rate := 0, status_distribution := [] }
  else
    let n := s.latencies.length
    let error_rate : ℚ :=
      if 0 < total_requests then (s.error_count : ℚ) / (total_requests : ℚ) else 0
    if n = 0 then
      { total_requests := total_requests, mean := none, std_sq := none,
        min_lat := none, max_lat := none, error_rate := error_rate,
        status_distribution := s.status_counts }
    else
      let mean : ℚ := s.latencies.sum / (n : ℚ)
      let sum_sq : ℚ := (s.latencies.map (fun x => x * x)).sum
      { total_requests := total_requests, mean := some mean,
        std_sq := some (sum_sq / (n : ℚ) - mean * mean),
        min_lat := list_min s.latencies, max_lat := list_max s.latencies,
        error_rate := error_rate, status_distribution := s.status_counts }

/-- Embedding of `RequestThrottler.run` (throttler.py lines 151-191) given the
per-URL outcomes of the trial: the worker drains the queue item by item; if any
item's `_send_request` returned `None`, the worker's unpacking raises, that
item's `queue.task_done()` never runs, `await queue.join()` never completes and
`run` never returns — modelled as `none`.  Otherwise `run` returns
`compute_stats` of the accumulated state. -/
def run_trial (outcomes : List Outcome) : Option TrialStats :=
  (outcomes.foldlM worker_step init_throttler_state).map compute_stats

/-- Configuration of a `RateFinder` (rate_finder.py `__init__` lines 19-43):
the constructor arguments that never change during `find_rate`.  `min_rate` and
`max_rate` here are the initial bracket endpoints. -/
structure FinderConfig where
  concurrency : ℕ
  error_threshold : ℚ
  bad_status_threshold : ℚ
  max_iterations : ℕ
  min_rate : ℚ
  max_rate : ℚ
deriving DecidableEq, Repr

/-- Value of the `best_stats` attribute of a `RateFinder`.  The constructor
initialises it to the 4-tuple `(None, None, None, None)` (rate_finder.py line
45, constructor `none4`); the acceptance branch of `find_rate` overwrites it
with the 6-tuple `(mean, std, lat_min, lat_max, error_rate, status_dist)`
(line 132, constructor `accepted` — `mean` is known non-`None` there, the
other latency slots are stored as they came out of the trial). -/
inductive BestStats where
  | none4
  | accepted (mean : ℚ) (std_sq : Option ℚ) (min_lat : Option ℚ) (max_lat : Option ℚ)
      (error_rate : ℚ) (status_distribution : List (ℕ × ℕ))
deriving DecidableEq, Repr

/-- Number of components of the Python tuple a `BestStats` value denotes:
4 for the constructor default `(None, None, None, None)`, 6 for an accepted
`(mean, std, lat_min, lat_max, error_rate, status_dist)`. -/
def best_stats_arity : BestStats → ℕ
  | BestStats.none4 => 4
  | BestStats.accepted _ _ _ _ _ _ => 6

/-- Whether the tuple a `BestStats` value denotes has an `error_rate`
component (equivalently a `status_distribution` component): the source stores
those two only in the 6-tuple of the acceptance branch. -/
def carries_error_rate_field : BestStats → Bool
  | BestStats.none4 => false
  | BestStats.accepted _ _ _ _ _ _ => true

/-- Mutable state of `RateFinder.find_rate`: the attributes the loop body
reads and writes (`min_rate`, `max_rate`, `best_rate`, `best_stats`). -/
structure FinderState where
  min_rate : ℚ
  max_rate : ℚ
  best_rate : Option ℚ
  best_stats : BestStats
deriving DecidableEq, Repr

/-- State of a freshly constructed `RateFinder` (`__init__` lines 44-45). -/
def init_finder_state (cfg : FinderConfig) : FinderState :=
  { min_rate := cfg.min_rate, max_rate := cfg.max_rate,
    best_rate := none, best_stats := BestStats.none4 }

/-- The candidate rate of one iteration:
`current_rate = (self.min_rate + self.max_rate) / 2` (rate_finder.py line 91). -/
def candidate (s : FinderState) : ℚ :=
  (s.min_rate + s.max_rate) / 2

/-- The bad-status rate computed on rate_finder.py line 73:
`(bad_counts / total_requests) if total_requests > 0 else 0.0`, where
`bad_counts` sums the occurrences of the status codes 429 and 500. -/
def bad_status_rate (dist : List (ℕ × ℕ)) (total_requests : ℕ) : ℚ :=
  let bad_counts := dict_get dist 429 + dict_get dist 500
  if 0 < total_requests then (bad_counts : ℚ) / (total_requests : ℚ) else 0

/-- Embedding of `RateFinder._evaluate_conditions` (rate_finder.py lines
47-77): returns `false` ("reject, lower the rate") when the mean latency, the
error rate or the bad-status rate exceeds its threshold, `true` otherwise. -/
def evaluate_conditions (cfg : FinderConfig) (mean : Option ℚ)
    (latency_threshold : ℚ) (error_rate : ℚ) (dist : List (ℕ × ℕ))
    (total_requests : ℕ) : Bool :=
  if (match mean with
      | some m => decide (m > latency_threshold)
      | none => false) then false
  else if error_rate > cfg.error_threshold then false
  else if bad_status_rate dist total_requests > cfg.bad_status_threshold then false
  else true

/-- Embedding of one iteration of the `for` loop of `RateFinder.find_rate`
(rate_finder.py lines 90-139).  `oracle` maps a candidate rate to the
`TrialStats` returned by `RequestThrottler(urls, rate, concurrency).run()` for
that rate — a deterministic request executor with the trial completing (see
`run_trial` for the non-completing case). -/
def find_step (cfg : FinderConfig) (oracle : ℚ → TrialStats) (s : FinderState) :
    FinderState :=
  let current_rate := candidate s
  let latency_threshold : ℚ := (cfg.concurrency : ℚ) / current_rate
  let st := oracle current_rate
  match st.mean with
  | none => { s with max_rate := current_rate }
  | some m =>
      if evaluate_conditions cfg (some m) latency_threshold st.error_rate
          st.status_distribution st.total_requests then
        { s with
            min_rate := current_rate,
            best_rate := some current_rate,
            best_stats := BestStats.accepted m st.std_sq st.min_lat st.max_lat
              st.error_rate st.status_distribution }
      else
        { s with max_rate := current_rate }

/-- Whether `find_step` takes its acceptance branch from state `s`. -/
def step_accepts (cfg : FinderConfig) (oracle : ℚ → TrialStats) (s : FinderState) :
    Bool :=
  let current_rate := candidate s
  let st := oracle current_rate
  match st.mean with
  | none => false
  | some m =>
      evaluate_conditions cfg (some m) ((cfg.concurrency : ℚ) / current_rate)
        st.error_rate st.status_distribution st.total_requests

/-- Iterate `find_step` a given number of times (the `for i in
range(self.max_iterations)` loop, which has no `break`). -/
def run_iters (cfg : FinderConfig) (oracle : ℚ → TrialStats) :
    ℕ → FinderState → FinderState
  | 0, s => s
  | n + 1, s => run_iters cfg oracle n (find_step cfg oracle s)

/-- The `RateFinder` state after `k` iterations of `find_rate`'s loop,
starting from the constructor state. -/
def state_at (cfg : FinderConfig) (oracle : ℚ → TrialStats) (k : ℕ) : FinderState :=
  run_iters cfg oracle k (init_finder_state cfg)

/-- Embedding of `RateFinder.find_rate` (rate_finder.py lines 79-141): run the
loop for exactly `max_iterations` iterations and return
`(self.best_rate, self.best_stats)`. -/
def find_rate (cfg : FinderConfig) (oracle : ℚ → TrialStats) :
    Option ℚ × BestStats :=
  let s := state_at cfg oracle cfg.max_iterations
  (s.best_rate, s.best_stats)

/-- Modelled from the spec: the spec's §4.3 claims the value under the square
root is clamped, "clamp to 0 if floating-point error produces a small negative
value before the square root".  This definition follows those words; the
source (throttler.py line 134) applies `math.sqrt` to the unclamped radicand. -/
def std_sq_spec_clamped (l : List ℚ) : ℚ :=
  max 0 ((l.map (fun x => x * x)).sum / (l.length : ℚ) -
    (l.sum / (l.length : ℚ)) * (l.sum / (l.length : ℚ)))

/-- Search-state invariant carried through `find_rate`'s loop: the current
bracket sits inside the configured one, is correctly ordered, and `best_rate`
(when set) never exceeds the bracket's lower endpoint. -/
def GoodState (cfg : FinderConfig) (s : FinderState) : Prop :=
  cfg.min_rate ≤ s.min_rate ∧ s.min_rate ≤ s.max_rate ∧ s.max_rate ≤ cfg.max_rate ∧
    ∀ b, s.best_rate = some b → b ≤ s.min_rate

/-- Concrete configuration used by witness instantiations. -/
def cfg_accept : FinderConfig :=
  { concurrency := 5, error_threshold := 1/10, bad_status_threshold := 1/10,
    max_iterations := 2, min_rate := 1, max_rate := 3 }

/-- Deterministic executor whose trials always satisfy every acceptance
condition (all requests succeed instantly with status 200). -/
def oracle_accept : ℚ → TrialStats := fun _ =>
  { total_requests := 2, mean := some 0, std_sq := some 0, min_lat := some 0,
    max_lat := some 0, error_rate := 0, status_distribution := [(200, 2)] }

/-- Concrete configuration used by counterexample and witness
instantiations of the no-acceptance path. -/
def cfg_reject : FinderConfig :=
  { concurrency := 5, error_threshold := 1/10, bad_status_threshold := 1/10,
    max_iterations := 2, min_rate := 1, max_rate := 3 }

/-- Deterministic executor whose trials always violate the latency condition
(mean latency 1000 far exceeds every threshold `5 / candidate` reachable from
`cfg_reject`), so no iteration ever accepts. -/
def oracle_reject : ℚ → TrialStats := fun _ =>
  { total_requests := 4, mean := some 1000, std_sq := some 0, min_lat := some 1000,
    max_lat := some 1000, error_rate := 0, status_distribution := [(200, 4)] }

/-- Concrete aggregation state after one successful request of latency 1. -/
def state_one_success : ThrottlerState :=
  { latencies := [1], success_count := 1, error_count := 0,
    status_counts := [(200, 1)] }

/-- Concrete aggregation state after two successful requests of latencies 1
and 3. -/
def state_two_success : ThrottlerState :=
  { latencies := [1, 3], success_count := 2, error_count := 0,
    status_counts := [(200, 2)] }

/-! ## Lemmas about the throttler embedding -/

theorem sum_vals_dict_incr (d : List (ℕ × ℕ)) (k : ℕ) :
    sum_vals (dict_incr d k) = sum_vals d + 1 := by
  induction d with
  | nil => simp [dict_incr, sum_vals]
  | cons p t ih =>
      obtain ⟨a, b⟩ := p
      by_cases h : a = k <;> simp [dict_incr, h, sum_vals] at * <;> omega

theorem record_outcomes_cons (t : ThrottlerState) (o : Outcome) (os : List Outcome) :
    record_outcomes t (o :: os) = record_outcomes (send_request t o).1 os := rfl

theorem record_outcomes_invariant (outcomes : List Outcome) (t : ThrottlerState)
    (h1 : sum_vals t.status_counts = t.success_count)
    (h2 : t.latencies.length = t.success_count) :
    sum_vals (record_outcomes t outcomes).status_counts =
      (record_outcomes t outcomes).success_count ∧
    (record_outcomes t outcomes).latencies.length =
      (record_outcomes t outcomes).success_count := by
  induction outcomes generalizing t with
  | nil => exact ⟨h1, h2⟩
  | cons o os ih =>
      rw [record_outcomes_cons]
      cases o with
      | success status latency =>
          refine ih _ ?_ ?_ <;>
            simp [send_request, sum_vals_dict_incr, h1, h2]
      | failure => exact ih _ h1 h2

theorem sq_sum_le_length_mul_sum_sq (l : List ℚ) :
    l.sum ^ 2 ≤ (l.length : ℚ) * (l.map (fun x => x * x)).sum := by
  induction l with
  | nil => simp
  | cons x t ih =>
      simp only [List.sum_cons, List.map_cons, List.length_cons]
      push_cast
      rcases Nat.eq_zero_or_pos t.length with h0 | hpos
      · have ht : t = [] := List.length_eq_zero.mp h0
        subst ht
        simp
        nlinarith [sq_nonneg x]
      · have hn : (0 : ℚ) < (t.length : ℚ) := by exact_mod_cast hpos
        nlinarith [ih, sq_nonneg ((t.length : ℚ) * x - t.sum), hn,
          mul_nonneg hn.le (sub_nonneg.mpr ih)]

/-! ## Claim theorems about the throttler -/

/-- C1 (code bug exhibit): a trial whose single request suffers a transport
failure never returns a `TrialStats` at all.  `_send_request` absorbs the
exception into `error_count` but then returns `None`; `_worker`'s tuple
unpacking of that `None` raises `TypeError`, the queue item is never
acknowledged, so `await queue.join()` in `run` blocks forever (modelled as
`none`).  The claim that `run` always returns a complete `TrialStats` with
`success_count + error_count == len(urls)` therefore fails. -/
theorem run_trial_transport_failure_never_returns :
    run_trial [Outcome.failure] = none := rfl

/-- C8: a trial over an empty URL list returns (rather than raising) the
`TrialStats` with `total_requests = 0`, all four latency fields absent
(`None`), `error_rate = 0.0` and an empty status distribution. -/
theorem run_trial_empty_urls :
    run_trial [] =
      some { total_requests := 0, mean := none, std_sq := none, min_lat := none,
             max_lat := none, error_rate := 0, status_distribution := [] } := rfl

/-- C10: each successful request bumps exactly one status bucket by one and
appends exactly one latency sample, a transport failure touches neither, and
consequently, over any per-URL outcome list of a trial, the sum of all counts
in the status distribution equals `success_count` (as does the number of
recorded latencies). -/
theorem status_distribution_sum_eq_success_count (outcomes : List Outcome) :
    (∀ (t : ThrottlerState) (code : ℕ) (lat : ℚ),
        sum_vals ((send_request t (Outcome.success code lat)).1.status_counts) =
          sum_vals t.status_counts + 1 ∧
        (send_request t (Outcome.success code lat)).1.latencies =
          t.latencies ++ [lat] ∧
        (send_request t (Outcome.success code lat)).1.success_count =
          t.success_count + 1) ∧
    (∀ t : ThrottlerState,
        (send_request t Outcome.failure).1.status_counts = t.status_counts ∧
        (send_request t Outcome.failure).1.latencies = t.latencies ∧
        (send_request t Outcome.failure).1.success_count = t.success_count) ∧
    sum_vals (record_outcomes init_throttler_state outcomes).status_counts =
      (record_outcomes init_throttler_state outcomes).success_count ∧
    (record_outcomes init_throttler_state outcomes).latencies.length =
      (record_outcomes init_throttler_state outcomes).success_count := by
  refine ⟨fun t code lat => ⟨sum_vals_dict_incr _ _, rfl, rfl⟩,
    fun t => ⟨rfl, rfl, rfl⟩, ?_, ?_⟩
  · exact (record_outcomes_invariant outcomes init_throttler_state rfl rfl).1
  · exact (record_outcomes_invariant outcomes init_throttler_state rfl rfl).2

/-- C7: in the `TrialStats` returned by `compute_stats`, the four latency
fields are simultaneously present or simultaneously absent, and absent exactly
when `success_count == 0` (absence being the distinguished value `None`).  The
hypothesis is the recording invariant of C10: one latency sample per success. -/
theorem compute_stats_presence (s : ThrottlerState)
    (h : s.latencies.length = s.success_count) :
    ((compute_stats s).mean = none ↔ s.success_count = 0) ∧
    ((compute_stats s).std_sq = none ↔ (compute_stats s).mean = none) ∧
    ((compute_stats s).min_lat = none ↔ (compute_stats s).mean = none) ∧
    ((compute_stats s).max_lat = none ↔ (compute_stats s).mean = none) := by
  rcases hl : s.latencies with _ | ⟨x, t⟩
  · have hs : s.success_count = 0 := by
      have := h
      rw [hl] at this
      simpa using this.symm
    by_cases he : s.error_count = 0 <;>
      simp [compute_stats, hl, hs, he, list_min, list_max]
  · have hs : s.success_count ≠ 0 := by
      have := h
      rw [hl] at this
      simp only [List.length_cons] at this
      omega
    have htot : ¬ s.success_count + s.error_count = 0 := by omega
    simp [compute_stats, hl, htot, hs, list_min, list_max]

/-- C2 (code bug exhibit): in exact arithmetic, whenever `compute_stats`
produces a present `std`, the radicand `(sum_sq / n) - (mean * mean)` handed to
`math.sqrt` is nonnegative — so the spec's clamp `max 0 _` is the identity on
it and the resulting `std` is `≥ 0`.  The source (throttler.py line 134)
applies `math.sqrt` directly, with no clamp: under IEEE-754 rounding the
radicand can be slightly negative (e.g. three latencies all equal to 0.1) and
the unguarded `math.sqrt` then raises `ValueError`, which this exact model
cannot exhibit but the cited line makes no attempt to prevent. -/
theorem variance_arg_nonneg (l : List ℚ) (hne : l.length ≠ 0) :
    0 ≤ (l.map (fun x => x * x)).sum / (l.length : ℚ) -
      l.sum / (l.length : ℚ) * (l.sum / (l.length : ℚ)) := by
  have hn : (0 : ℚ) < (l.length : ℚ) := by
    exact_mod_cast Nat.pos_of_ne_zero hne
  have hcs := sq_sum_le_length_mul_sum_sq l
  have key : l.sum / (l.length : ℚ) * (l.sum / (l.length : ℚ)) ≤
      (l.map (fun x => x * x)).sum / (l.length : ℚ) := by
    rw [div_mul_div_comm, div_le_div_iff₀ (by positivity) hn]
    nlinarith [hcs, hn.le]
  linarith

theorem variance_arg_eq_clamped (l : List ℚ) (hne : l.length ≠ 0) :
    (l.map (fun x => x * x)).sum / (l.length : ℚ) -
      l.sum / (l.length : ℚ) * (l.sum / (l.length : ℚ)) = std_sq_spec_clamped l :=
  (max_eq_right (variance_arg_nonneg l hne)).symm

theorem compute_stats_std_radicand_nonneg (s : ThrottlerState) (v : ℚ)
    (h : (compute_stats s).std_sq = some v) :
    0 ≤ v ∧ v = std_sq_spec_clamped s.latencies := by
  by_cases h1 : s.success_count + s.error_count = 0
  · simp [compute_stats, h1] at h
  · by_cases h2 : s.latencies.length = 0
    · simp [compute_stats, h1, h2] at h
    · have h' : (s.latencies.map (fun x => x * x)).sum / (s.latencies.length : ℚ) -
          s.latencies.sum / (s.latencies.length : ℚ) *
            (s.latencies.sum / (s.latencies.length : ℚ)) = v := by
        simpa [compute_stats, h1, h2] using h
      rw [← h']
      exact ⟨variance_arg_nonneg _ h2, variance_arg_eq_clamped _ h2⟩

/-! ## Lemmas about the rate-finder embedding -/

theorem run_iters_succ (cfg : FinderConfig) (oracle : ℚ → TrialStats) (n : ℕ)
    (s : FinderState) :
    run_iters cfg oracle (n + 1) s =
      find_step cfg oracle (run_iters cfg oracle n s) := by
  induction n generalizing s with
  | zero => rfl
  | succ n ih => exact ih (find_step cfg oracle s)

theorem state_at_succ (cfg : FinderConfig) (oracle : ℚ → TrialStats) (k : ℕ) :
    state_at cfg oracle (k + 1) = find_step cfg oracle (state_at cfg oracle k) :=
  run_iters_succ cfg oracle k (init_finder_state cfg)

theorem candidate_bounds (s : FinderState) (h : s.min_rate ≤ s.max_rate) :
    s.min_rate ≤ candidate s ∧ candidate s ≤ s.max_rate := by
  unfold candidate
  constructor <;> linarith

theorem find_step_mean_none (cfg : FinderConfig) (oracle : ℚ → TrialStats)
    (s : FinderState) (h : (oracle (candidate s)).mean = none) :
    find_step cfg oracle s = { s with max_rate := candidate s } := by
  simp only [find_step, h]

theorem find_step_not_accepts (cfg : FinderConfig) (oracle : ℚ → TrialStats)
    (s : FinderState) (h : step_accepts cfg oracle s = false) :
    find_step cfg oracle s = { s with max_rate := candidate s } := by
  simp only [find_step]
  split
  · rfl
  · next m hm =>
      simp only [step_accepts, hm] at h
      simp [h]

theorem find_step_accepts (cfg : FinderConfig) (oracle : ℚ → TrialStats)
    (s : FinderState) (m : ℚ) (hm : (oracle (candidate s)).mean = some m)
    (h : step_accepts cfg oracle s = true) :
    find_step cfg oracle s =
      { s with min_rate := candidate s, best_rate := some (candidate s),
               best_stats := BestStats.accepted m (oracle (candidate s)).std_sq
                 (oracle (candidate s)).min_lat (oracle (candidate s)).max_lat
                 (oracle (candidate s)).error_rate
                 (oracle (candidate s)).status_distribution } := by
  simp only [step_accepts, hm] at h
  simp only [find_step, hm]
  simp [h]

theorem find_step_shape (cfg : FinderConfig) (oracle : ℚ → TrialStats)
    (s : FinderState) :
    find_step cfg oracle s = { s with max_rate := candidate s } ∨
    ∃ m, (oracle (candidate s)).mean = some m ∧ step_accepts cfg oracle s = true ∧
      find_step cfg oracle s =
        { s with min_rate := candidate s, best_rate := some (candidate s),
                 best_stats := BestStats.accepted m (oracle (candidate s)).std_sq
                   (oracle (candidate s)).min_lat (oracle (candidate s)).max_lat
                   (oracle (candidate s)).error_rate
                   (oracle (candidate s)).status_distribution } := by
  cases hb : step_accepts cfg oracle s
  · exact Or.inl (find_step_not_accepts cfg oracle s hb)
  · refine Or.inr ?_
    cases hm : (oracle (candidate s)).mean with
    | none => exact absurd hb (by simp [step_accepts, hm])
    | some m => exact ⟨m, rfl, rfl, find_step_accepts cfg oracle s m hm hb⟩

theorem good_state_init (cfg : FinderConfig) (h : cfg.min_rate ≤ cfg.max_rate) :
    GoodState cfg (init_finder_state cfg) :=
  ⟨le_refl _, h, le_refl _, fun b hb => by simp [init_finder_state] at hb⟩

theorem good_state_step (cfg : FinderConfig) (oracle : ℚ → TrialStats)
    (s : FinderState) (hs : GoodState cfg s) :
    GoodState cfg (find_step cfg oracle s) := by
  obtain ⟨h1, h2, h3, h4⟩ := hs
  obtain ⟨hc1, hc2⟩ := candidate_bounds s h2
  rcases find_step_shape cfg oracle s with heq | ⟨m, hm, hacc, heq⟩ <;> rw [heq]
  · exact ⟨h1, hc1, le_trans hc2 h3, fun b hb => h4 b hb⟩
  · refine ⟨le_trans h1 hc1, hc2, h3, fun b hb => ?_⟩
    simp only [Option.some.injEq] at hb
    rw [← hb]

theorem good_state_at (cfg : FinderConfig) (oracle : ℚ → TrialStats)
    (h : cfg.min_rate ≤ cfg.max_rate) (k : ℕ) :
    GoodState cfg (state_at cfg oracle k) := by
  induction k with
  | zero => exact good_state_init cfg h
  | succ k ih =>
      rw [state_at_succ]
      exact good_state_step cfg oracle _ ih

theorem best_rate_step_mono (cfg : FinderConfig) (oracle : ℚ → TrialStats)
    (s : FinderState) (hs : GoodState cfg s) (b : ℚ)
    (hb : s.best_rate = some b) :
    ∃ b', (find_step cfg oracle s).best_rate = some b' ∧ b ≤ b' := by
  rcases find_step_shape cfg oracle s with heq | ⟨m, hm, hacc, heq⟩ <;> rw [heq]
  · exact ⟨b, hb, le_refl b⟩
  · exact ⟨candidate s, rfl, le_trans (hs.2.2.2 b hb) (candidate_bounds s hs.2.1).1⟩

theorem best_rate_origin (cfg : FinderConfig) (oracle : ℚ → TrialStats)
    (h : cfg.min_rate ≤ cfg.max_rate) (n : ℕ) (b : ℚ)
    (hb : (state_at cfg oracle n).best_rate = some b) :
    cfg.min_rate ≤ b ∧ b ≤ cfg.max_rate ∧
      ∃ k, k < n ∧ b = candidate (state_at cfg oracle k) := by
  induction n with
  | zero => simp [state_at, run_iters, init_finder_state] at hb
  | succ n ih =>
      rw [state_at_succ] at hb
      rcases find_step_shape cfg oracle (state_at cfg oracle n) with heq | ⟨m, hm, hacc, heq⟩
      · rw [heq] at hb
        obtain ⟨g1, g2, k, hk, hc⟩ := ih hb
        exact ⟨g1, g2, k, Nat.lt_succ_of_lt hk, hc⟩
      · rw [heq] at hb
        simp only [Option.some.injEq] at hb
        obtain ⟨u1, u2, u3, _⟩ := good_state_at cfg oracle h n
        obtain ⟨hc1, hc2⟩ := candidate_bounds _ u2
        exact ⟨hb ▸ le_trans u1 hc1, hb ▸ le_trans hc2 u3,
          n, Nat.lt_succ_self n, hb.symm⟩

theorem no_accept_best_unchanged (cfg : FinderConfig) (oracle : ℚ → TrialStats)
    (n : ℕ)
    (h : ∀ k, k < n → step_accepts cfg oracle (state_at cfg oracle k) = false) :
    (state_at cfg oracle n).best_rate = none ∧
    (state_at cfg oracle n).best_stats = BestStats.none4 := by
  induction n with
  | zero => exact ⟨rfl, rfl⟩
  | succ n ih =>
      obtain ⟨i1, i2⟩ := ih fun k hk => h k (Nat.lt_succ_of_lt hk)
      rw [state_at_succ, find_step_not_accepts cfg oracle _ (h n (Nat.lt_succ_self n))]
      exact ⟨i1, i2⟩

/-! ## Claim theorems about the rate finder -/

/-- C4: with at least one success (`mean` present), the acceptance decision of
`_evaluate_conditions` rejects (returns `False`) exactly when the mean latency
exceeds `concurrency / candidate`, or the error rate exceeds
`error_threshold`, or the 429-plus-500 rate exceeds `bad_status_threshold`;
and the bad-status rate of a trial with `total_requests == 0` is `0.0`. -/
theorem evaluate_conditions_reject_iff (cfg : FinderConfig) (m c er : ℚ)
    (dist : List (ℕ × ℕ)) (total_requests : ℕ) :
    (evaluate_conditions cfg (some m) ((cfg.concurrency : ℚ) / c) er dist
        total_requests = false ↔
      (m > (cfg.concurrency : ℚ) / c ∨ er > cfg.error_threshold ∨
        bad_status_rate dist total_requests > cfg.bad_status_threshold)) ∧
    bad_status_rate dist 0 = 0 := by
  constructor
  · simp only [evaluate_conditions, gt_iff_lt, decide_eq_true_eq]
    split_ifs with h1 h2 h3 <;> simp_all
  · simp [bad_status_rate]

/-- C6: started from a configuration with `min_rate ≤ max_rate`, the bracket
invariant `min_rate ≤ max_rate` holds before the first iteration (`k = 0`) and
after every iteration of `find_rate`'s loop, whichever branch (degenerate
trial, acceptance, or rejection) each iteration took. -/
theorem min_rate_le_max_rate_invariant (cfg : FinderConfig)
    (oracle : ℚ → TrialStats) (h : cfg.min_rate ≤ cfg.max_rate) (k : ℕ) :
    (state_at cfg oracle k).min_rate ≤ (state_at cfg oracle k).max_rate :=
  (good_state_at cfg oracle h k).2.1

theorem min_rate_le_max_rate_invariant_witness :
    (state_at cfg_accept oracle_accept 2).min_rate ≤
      (state_at cfg_accept oracle_accept 2).max_rate :=
  min_rate_le_max_rate_invariant cfg_accept oracle_accept (by decide) 2

/-- C5: during one `find_rate` run (with a well-ordered initial bracket),
`best_rate`, once set, never decreases in any later iteration; and an
iteration whose trial had no successful request (`mean` is `None`) only sets
`max_rate` to the candidate, leaving `min_rate`, `best_rate` and `best_stats`
untouched and never consulting `_evaluate_conditions` (the returned state is
the same whatever that evaluation would have said). -/
theorem best_rate_monotone_and_degenerate (cfg : FinderConfig)
    (oracle : ℚ → TrialStats) (h : cfg.min_rate ≤ cfg.max_rate) :
    (∀ i j, i ≤ j → ∀ b, (state_at cfg oracle i).best_rate = some b →
      ∃ b', (state_at cfg oracle j).best_rate = some b' ∧ b ≤ b') ∧
    (∀ s : FinderState, (oracle (candidate s)).mean = none →
      find_step cfg oracle s = { s with max_rate := candidate s }) := by
  refine ⟨?_, fun s hs => find_step_mean_none cfg oracle s hs⟩
  intro i j hij b hb
  induction j, hij using Nat.le_induction with
  | base => exact ⟨b, hb, le_refl b⟩
  | succ j hij ih =>
      obtain ⟨b', hb', hbb'⟩ := ih
      obtain ⟨b'', hb'', hb'b''⟩ :=
        best_rate_step_mono cfg oracle _ (good_state_at cfg oracle h j) b' hb'
      rw [state_at_succ]
      exact ⟨b'', hb'', le_trans hbb' hb'b''⟩

attribute [local semireducible] Rat.mul Rat.inv Rat.add Rat.sub in
theorem best_rate_monotone_and_degenerate_witness :
    ∃ b', (state_at cfg_accept oracle_accept 2).best_rate = some b' ∧ (2 : ℚ) ≤ b' :=
  (best_rate_monotone_and_degenerate cfg_accept oracle_accept (by decide)).1 1 2
    (by decide) 2 (by decide)

/-- C9: whenever `find_rate` returns a present `best_rate` (under the input
contract `min_rate ≤ max_rate`), that rate lies inside the initially
configured bracket and is the midpoint candidate of one of the tested
iterations. -/
theorem best_rate_within_initial_bracket (cfg : FinderConfig)
    (oracle : ℚ → TrialStats) (h : cfg.min_rate ≤ cfg.max_rate) (b : ℚ)
    (hb : (find_rate cfg oracle).1 = some b) :
    cfg.min_rate ≤ b ∧ b ≤ cfg.max_rate ∧
      ∃ k, k < cfg.max_iterations ∧ b = candidate (state_at cfg oracle k) :=
  best_rate_origin cfg oracle h cfg.max_iterations b hb

attribute [local semireducible] Rat.mul Rat.inv Rat.add Rat.sub in
theorem best_rate_within_initial_bracket_witness :
    cfg_accept.min_rate ≤ 5/2 ∧ (5/2 : ℚ) ≤ cfg_accept.max_rate ∧
      ∃ k, k < cfg_accept.max_iterations ∧
        (5/2 : ℚ) = candidate (state_at cfg_accept oracle_accept k) :=
  best_rate_within_initial_bracket cfg_accept oracle_accept (by decide) (5/2)
    (by decide)

attribute [local semireducible] Rat.mul Rat.inv Rat.add Rat.sub in
/-- C3 counterexample: a run in which no iteration accepts (every trial's mean
latency 1000 violates the latency condition) returns `best_rate = None`
together with the constructor's 4-tuple `(None, None, None, None)` — a value
that does not carry the `error_rate` and `status_distribution` fields an
accepted 6-tuple carries, contradicting the claim that the all-absent default
has the same fields as an accepted result. -/
theorem find_rate_no_accept_default_is_4_tuple :
    (find_rate cfg_reject oracle_reject).1 = none ∧
    (find_rate cfg_reject oracle_reject).2 = BestStats.none4 ∧
    carries_error_rate_field (find_rate cfg_reject oracle_reject).2 = false ∧
    best_stats_arity (find_rate cfg_reject oracle_reject).2 = 4 ∧
    best_stats_arity (BestStats.accepted 0 none none none 0 []) = 6 := by
  refine ⟨?_, ?_, ?_, ?_, rfl⟩ <;> decide

/-- C3 (amended): `find_rate` runs its loop for exactly `max_iterations`
iterations — there is no convergence-delta early stop — and then returns the
pair `(best_rate, best_stats)`; when no iteration ever accepted, that pair is
`(None, (None, None, None, None))`: the 4-field all-`None` default from the
constructor, which lacks the `error_rate` and `status_distribution` fields of
an accepted result. -/
theorem find_rate_full_budget (cfg : FinderConfig) (oracle : ℚ → TrialStats)
    (h : ∀ k, k < cfg.max_iterations →
      step_accepts cfg oracle (state_at cfg oracle k) = false) :
    find_rate cfg oracle =
      ((state_at cfg oracle cfg.max_iterations).best_rate,
        (state_at cfg oracle cfg.max_iterations).best_stats) ∧
    find_rate cfg oracle = (none, BestStats.none4) := by
  obtain ⟨h1, h2⟩ := no_accept_best_unchanged cfg oracle cfg.max_iterations h
  exact ⟨rfl, by simp [find_rate, h1, h2]⟩

attribute [local semireducible] Rat.mul Rat.inv Rat.add Rat.sub in
theorem find_rate_full_budget_witness :
    find_rate cfg_reject oracle_reject = (none, BestStats.none4) :=
  (find_rate_full_budget cfg_reject oracle_reject (by decide)).2

theorem compute_stats_presence_witness :
    ((compute_stats state_one_success).mean = none ↔
      state_one_success.success_count = 0) ∧
    ((compute_stats state_one_success).std_sq = none ↔
      (compute_stats state_one_success).mean = none) ∧
    ((compute_stats state_one_success).min_lat = none ↔
      (compute_stats state_one_success).mean = none) ∧
    ((compute_stats state_one_success).max_lat = none ↔
      (compute_stats state_one_success).mean = none) :=
  compute_stats_presence state_one_success (by decide)

attribute [local semireducible] Rat.mul Rat.inv Rat.add Rat.sub in
theorem compute_stats_std_radicand_nonneg_witness :
    (0 : ℚ) ≤ 1 ∧ (1 : ℚ) = std_sq_spec_clamped state_two_success.latencies :=
  compute_stats_std_radicand_nonneg state_two_success 1 (by decide)
